import Mathlib

/-!
Shallow embedding of the Auto_dns_mapper repository.

The repository contains two near-duplicate variants of an instance-state
DNS synchronizer:
  src/auto_dns_mapping/app.py  (record-name prefix "autodns-", blank-tag guard,
                                direct access to the Tags key)
  src/hello_world/app.py       (no prefix, no blank-tag guard, tolerant
                                Tags lookup with a default)

External collaborators (EC2 describe, Route 53 list/change) are modelled as
an oracle environment; each set_dns run returns its boolean result together
with the list of mutating DNS calls it issued, in order.
-/

/-- A key-value tag attached to an EC2 instance. -/
structure Tag where
  key : String
  value : String
deriving DecidableEq, Repr

/-- Point-in-time view of an EC2 instance as returned by describe_instances.
The tags field is none when the response lacks the Tags key (direct
subscripting then raises KeyError in Python). -/
structure Ec2Instance where
  stateName : String
  publicIpAddress : Option String
  tags : Option (List Tag)
deriving DecidableEq, Repr

/-- A Route 53 resource record set: name, resource record values, TTL, type. -/
structure ResourceRecordSet where
  Name : String
  ResourceRecords : List String
  TTL : Nat
  recType : String
deriving DecidableEq, Repr

/-- A mutating call submitted to change_resource_record_sets. -/
inductive DnsCall where
  | upsert (comment : String) (rrs : ResourceRecordSet)
  | delete (rrs : ResourceRecordSet)
deriving DecidableEq, Repr

/-- Oracle for the external AWS collaborators: the outcome of the EC2
describe lookup, of the zone list query (keyed by StartRecordName), and of
each mutating change call. An error value models a raised exception. -/
structure AwsEnv where
  describeResult : Except String Ec2Instance
  listResult : String → Except String (List ResourceRecordSet)
  changeResult : DnsCall → Except String Unit

/-- Whether a mutating change call succeeds in the given environment. -/
def callOk (env : AwsEnv) (c : DnsCall) : Bool :=
  match env.changeResult c with
  | .ok _ => true
  | .error _ => false

/-- Python str.strip: drop leading and trailing whitespace characters. -/
def pyStrip (s : String) : String :=
  ⟨((s.data.dropWhile Char.isWhitespace).reverse.dropWhile Char.isWhitespace).reverse⟩

/-- Python str.lower: lower-case every character. -/
def pyLower (s : String) : String :=
  ⟨s.data.map Char.toLower⟩

/-- Python str.strip().lower() on a string. -/
def pyNorm (s : String) : String :=
  pyLower (pyStrip s)

/-- The DNS name-tag extraction shared verbatim by both variants:
first tag whose trimmed, lower-cased key is dns; its value trimmed and
lower-cased; empty string when no tag matches. -/
def extractDnsStr (tags : List Tag) : String :=
  match tags.find? (fun t => pyNorm t.key == "dns") with
  | some t => pyNorm t.value
  | none => ""

/-- Structured result of the lambda entry point. -/
structure LambdaResult where
  statusCode : Nat
  body : String
deriving DecidableEq, Repr

/-- Nested detail object of the trigger event; the instance id field may be
absent. -/
structure EventDetail where
  instanceId : Option String
deriving DecidableEq, Repr

/-- Trigger event payload; the detail object may be absent. -/
structure Event where
  detail : Option EventDetail
deriving DecidableEq, Repr

namespace auto_dns_mapping

/-- Embedding of IpToDNSMapper._delete_route53_record_set from
src/auto_dns_mapping/app.py. Returns the boolean result and the mutating
calls issued. -/
def deleteRecordSet (env : AwsEnv) (dom dns_str : String) : Bool × List DnsCall :=
  let target := "autodns-" ++ dns_str ++ "." ++ dom
  match env.listResult target with
  | .error _ => (false, [])
  | .ok l =>
    match l.head? with
    | none => (false, [])
    | some rd =>
      if rd.Name ≠ target ++ "." then (false, [])
      else
        match rd.ResourceRecords.head? with
        | none => (false, [])
        | some v =>
          let rrs : ResourceRecordSet :=
            { Name := rd.Name, ResourceRecords := [v], TTL := rd.TTL,
              recType := rd.recType }
          (callOk env (DnsCall.delete rrs), [DnsCall.delete rrs])

/-- Embedding of IpToDNSMapper._create_route53_record_set from
src/auto_dns_mapping/app.py. -/
def createRecordSet (env : AwsEnv) (dom iid dns_str ipv4 : String) :
    Bool × List DnsCall :=
  let rrs : ResourceRecordSet :=
    { Name := "autodns-" ++ dns_str ++ "." ++ dom, ResourceRecords := [ipv4],
      TTL := 300, recType := "A" }
  let c := DnsCall.upsert ("DNS attached to instance " ++ iid) rrs
  (callOk env c, [c])

/-- Embedding of IpToDNSMapper.set_dns from src/auto_dns_mapping/app.py. -/
def set_dns (env : AwsEnv) (dom iid : String) : Bool × List DnsCall :=
  match env.describeResult with
  | .error _ => (false, [])
  | .ok inst =>
    match inst.tags with
    | none => (false, [])
    | some ts =>
      let dns_str := extractDnsStr ts
      if dns_str = "" then (false, [])
      else if inst.stateName = "terminated" then deleteRecordSet env dom dns_str
      else
        let ipv4 :=
          if inst.stateName = "running" then inst.publicIpAddress.getD ""
          else if inst.stateName = "stopped" then "127.0.0.1"
          else ""
        createRecordSet env dom iid dns_str ipv4

/-- Embedding of lambda_handler from src/auto_dns_mapping/app.py. The error
case models a KeyError raised while reading the nested instance id. -/
def lambda_handler (env : AwsEnv) (dom : String) (event : Event) :
    Except String LambdaResult :=
  match event.detail with
  | none => .error "KeyError: detail"
  | some d =>
    match d.instanceId with
    | none => .error "KeyError: instance-id"
    | some iid =>
      let success := (set_dns env dom iid).1
      .ok { statusCode := if success then 200 else 500,
            body := if success then "\"Function executed\"" else "\"Function failed\"" }

end auto_dns_mapping

namespace hello_world

/-- Embedding of IpToDNSMapper._delete_route53_record_set from
src/hello_world/app.py (no record-name prefix). -/
def deleteRecordSet (env : AwsEnv) (dom dns_str : String) : Bool × List DnsCall :=
  let target := dns_str ++ "." ++ dom
  match env.listResult target with
  | .error _ => (false, [])
  | .ok l =>
    match l.head? with
    | none => (false, [])
    | some rd =>
      if rd.Name ≠ target ++ "." then (false, [])
      else
        match rd.ResourceRecords.head? with
        | none => (false, [])
        | some v =>
          let rrs : ResourceRecordSet :=
            { Name := rd.Name, ResourceRecords := [v], TTL := rd.TTL,
              recType := rd.recType }
          (callOk env (DnsCall.delete rrs), [DnsCall.delete rrs])

/-- Embedding of IpToDNSMapper._create_route53_record_set from
src/hello_world/app.py. -/
def createRecordSet (env : AwsEnv) (dom iid dns_str ipv4 : String) :
    Bool × List DnsCall :=
  let rrs : ResourceRecordSet :=
    { Name := dns_str ++ "." ++ dom, ResourceRecords := [ipv4],
      TTL := 300, recType := "A" }
  let c := DnsCall.upsert ("DNS attached to instance " ++ iid) rrs
  (callOk env c, [c])

/-- Embedding of IpToDNSMapper.set_dns from src/hello_world/app.py: tolerant
Tags lookup with default empty list, and no blank-tag guard. -/
def set_dns (env : AwsEnv) (dom iid : String) : Bool × List DnsCall :=
  match env.describeResult with
  | .error _ => (false, [])
  | .ok inst =>
    let ts := inst.tags.getD []
    let dns_str := extractDnsStr ts
    if inst.stateName = "terminated" then deleteRecordSet env dom dns_str
    else
      let ipv4 :=
        if inst.stateName = "running" then inst.publicIpAddress.getD ""
        else if inst.stateName = "stopped" then "127.0.0.1"
        else ""
      createRecordSet env dom iid dns_str ipv4

/-- Embedding of lambda_handler from src/hello_world/app.py. -/
def lambda_handler (env : AwsEnv) (dom : String) (event : Event) :
    Except String LambdaResult :=
  match event.detail with
  | none => .error "KeyError: detail"
  | some d =>
    match d.instanceId with
    | none => .error "KeyError: instance-id"
    | some iid =>
      let success := (set_dns env dom iid).1
      .ok { statusCode := if success then 200 else 500,
            body := if success then "\"Function executed\"" else "\"Function failed\"" }

end hello_world

/-- An always-succeeding change oracle. -/
def okChange : DnsCall → Except String Unit := fun _ => .ok ()

/-- A running instance with no dns tag and a public address. -/
def instNoTag : Ec2Instance := ⟨"running", some "9.9.9.9", some [⟨"Name", "x"⟩]⟩

/-- Environment whose describe call returns instNoTag. -/
def envNoTag : AwsEnv := ⟨.ok instNoTag, fun _ => .ok [], okChange⟩

/-- An instance in the pending lifecycle state with a dns tag. -/
def instPending : Ec2Instance := ⟨"pending", none, some [⟨"dns", "web1"⟩]⟩

/-- Environment whose describe call returns instPending. -/
def envPending : AwsEnv := ⟨.ok instPending, fun _ => .ok [], okChange⟩

/-- A running instance with tag dns=web1 and public address 1.2.3.4. -/
def instRunning : Ec2Instance := ⟨"running", some "1.2.3.4", some [⟨"dns", "web1"⟩]⟩

/-- Environment whose describe call returns instRunning. -/
def envRunning : AwsEnv := ⟨.ok instRunning, fun _ => .ok [], okChange⟩

/-- A stopped instance with a mixed-case, space-padded dns tag value. -/
def instStopped : Ec2Instance := ⟨"stopped", none, some [⟨"dns", " Web1 "⟩]⟩

/-- Environment whose describe call returns instStopped. -/
def envStopped : AwsEnv := ⟨.ok instStopped, fun _ => .ok [], okChange⟩

/-- A terminated instance with tag dns=web1. -/
def instTerminated : Ec2Instance := ⟨"terminated", none, some [⟨"dns", "web1"⟩]⟩

/-- A record whose name does not match any target derived from dns=web1. -/
def mismatchRecord : ResourceRecordSet := ⟨"zzz.example.com.", ["5.5.5.5"], 60, "A"⟩

/-- Environment where the zone query always returns the mismatching record. -/
def envTermMismatch : AwsEnv := ⟨.ok instTerminated, fun _ => .ok [mismatchRecord], okChange⟩

/-- A matched record set carrying two resource values. -/
def twoValRecord : ResourceRecordSet :=
  ⟨"autodns-web1.example.com.", ["1.1.1.1", "2.2.2.2"], 60, "A"⟩

/-- Environment where the zone query returns the two-valued record. -/
def envTwoVals : AwsEnv := ⟨.error "unused", fun _ => .ok [twoValRecord], okChange⟩

/-- Environment whose describe call raises. -/
def envDescribeFail : AwsEnv := ⟨.error "InstanceNotFound", fun _ => .ok [], okChange⟩

/-- Matched record for the delete query of the prefixed variant, two values. -/
def rdAutoW : ResourceRecordSet := ⟨"autodns-web1.example.com.", ["7.7.7.7", "8.8.8.8"], 120, "A"⟩

/-- Matched record for the delete query of the unprefixed variant. -/
def rdHelloW : ResourceRecordSet := ⟨"web1.example.com.", ["6.6.6.6"], 120, "A"⟩

/-- Environment whose zone query answers the delete target of each variant with a
name-matching record. -/
def envDeleteW : AwsEnv :=
  ⟨.ok instTerminated,
   fun n => if n = "autodns-web1.example.com" then .ok [rdAutoW] else .ok [rdHelloW],
   okChange⟩

/-- The first tag whose normalized key is dns is found, skipping any leading
tags whose normalized key is not dns. -/
theorem find_dns_skip (pre post : List Tag) (t : Tag)
    (hpre : ∀ u ∈ pre, pyNorm u.key ≠ "dns") (ht : pyNorm t.key = "dns") :
    (pre ++ t :: post).find? (fun u => pyNorm u.key == "dns") = some t := by
  induction pre with
  | nil =>
      simp only [List.nil_append]
      exact List.find?_cons_of_pos _ (by simp [ht])
  | cons u us ih =>
      have hu : (pyNorm u.key == "dns") = false := by
        simpa using hpre u (List.mem_cons_self u us)
      simp only [List.cons_append]
      rw [List.find?_cons_of_neg _ (by simp_all)]
      exact ih (fun v hv => hpre v (List.mem_cons_of_mem u hv))

/-- A tag list with no tag whose normalized key is dns extracts to the empty
string. -/
theorem extractDnsStr_eq_empty (ts : List Tag)
    (h : ∀ u ∈ ts, pyNorm u.key ≠ "dns") : extractDnsStr ts = "" := by
  unfold extractDnsStr
  have : ts.find? (fun u => pyNorm u.key == "dns") = none := by
    rw [List.find?_eq_none]
    intro u hu
    simpa using h u hu
  rw [this]

/-- Trace shape of deletion in the prefixed variant: either nothing was issued
or a single delete was. -/
theorem deleteTraceAuto (env : AwsEnv) (dom s : String) :
    (auto_dns_mapping.deleteRecordSet env dom s).2 = [] ∨
    ∃ r, (auto_dns_mapping.deleteRecordSet env dom s).2 = [DnsCall.delete r] := by
  rcases h : env.listResult ("autodns-" ++ s ++ "." ++ dom) with e | l
  · left; simp [auto_dns_mapping.deleteRecordSet, h]
  · rcases hh : l.head? with _ | rd
    · left; simp [auto_dns_mapping.deleteRecordSet, h, hh]
    · by_cases hn : rd.Name = "autodns-" ++ s ++ "." ++ dom ++ "."
      · rcases hv : rd.ResourceRecords.head? with _ | v
        · left; simp [auto_dns_mapping.deleteRecordSet, h, hh, hn, hv]
        · right
          exact ⟨⟨rd.Name, [v], rd.TTL, rd.recType⟩,
            by simp [auto_dns_mapping.deleteRecordSet, h, hh, hn, hv]⟩
      · left; simp [auto_dns_mapping.deleteRecordSet, h, hh, hn]

/-- Trace shape of deletion in the unprefixed variant: either nothing was
issued or a single delete was. -/
theorem deleteTraceHello (env : AwsEnv) (dom s : String) :
    (hello_world.deleteRecordSet env dom s).2 = [] ∨
    ∃ r, (hello_world.deleteRecordSet env dom s).2 = [DnsCall.delete r] := by
  rcases h : env.listResult (s ++ "." ++ dom) with e | l
  · left; simp [hello_world.deleteRecordSet, h]
  · rcases hh : l.head? with _ | rd
    · left; simp [hello_world.deleteRecordSet, h, hh]
    · by_cases hn : rd.Name = s ++ "." ++ dom ++ "."
      · rcases hv : rd.ResourceRecords.head? with _ | v
        · left; simp [hello_world.deleteRecordSet, h, hh, hn, hv]
        · right
          exact ⟨⟨rd.Name, [v], rd.TTL, rd.recType⟩,
            by simp [hello_world.deleteRecordSet, h, hh, hn, hv]⟩
      · left; simp [hello_world.deleteRecordSet, h, hh, hn]

/-- C1 counterexample: with a running instance whose tag set has no dns tag,
the auto_dns_mapping variant returns False, the failure result rather than a
success distinct from failure, and the hello_world variant issues a DNS
UPSERT call, contradicting that no DNS API call is issued. -/
theorem C1_counterexample :
    (auto_dns_mapping.set_dns envNoTag "example.com" "i-1").1 = false ∧
    (hello_world.set_dns envNoTag "example.com" "i-1").2 =
      [DnsCall.upsert "DNS attached to instance i-1"
        ⟨".example.com", ["9.9.9.9"], 300, "A"⟩] := by
  decide

/-- C1 amended: when the tag set of the fetched snapshot yields a blank DNS name
tag, the auto_dns_mapping variant returns False, the failure result, with no
DNS API call issued and no record created; the hello_world variant has no
blank-tag guard and, for any non-terminated state, still issues a DNS UPSERT
call. -/
theorem C1_blank_tag (env : AwsEnv) (dom iid : String) (inst : Ec2Instance)
    (hdesc : env.describeResult = .ok inst)
    (hblank : extractDnsStr (inst.tags.getD []) = "") :
    auto_dns_mapping.set_dns env dom iid = (false, []) ∧
    (inst.stateName ≠ "terminated" →
      ∃ rrs, (hello_world.set_dns env dom iid).2 =
        [DnsCall.upsert ("DNS attached to instance " ++ iid) rrs]) := by
  constructor
  · rcases htags : inst.tags with _ | ts
    · simp [auto_dns_mapping.set_dns, hdesc, htags]
    · rw [htags] at hblank
      simp only [Option.getD_some] at hblank
      simp [auto_dns_mapping.set_dns, hdesc, htags, hblank]
  · intro hterm
    refine ⟨⟨extractDnsStr (inst.tags.getD []) ++ "." ++ dom,
      [if inst.stateName = "running" then inst.publicIpAddress.getD ""
       else if inst.stateName = "stopped" then "127.0.0.1" else ""], 300, "A"⟩, ?_⟩
    simp [hello_world.set_dns, hdesc, hterm, hello_world.createRecordSet]

/-- C1 witness: the amended statement instantiated at the concrete
no-dns-tag environment. -/
theorem C1_witness :
    auto_dns_mapping.set_dns envNoTag "example.com" "i-1w" = (false, []) ∧
    (instNoTag.stateName ≠ "terminated" →
      ∃ rrs, (hello_world.set_dns envNoTag "example.com" "i-1w").2 =
        [DnsCall.upsert ("DNS attached to instance " ++ "i-1w") rrs]) :=
  C1_blank_tag envNoTag "example.com" "i-1w" instNoTag rfl (by decide)

/-- C2 counterexample: for a pending instance with tag dns=web1, both claims
fail at once in the auto_dns_mapping variant: a DNS mutation call is issued,
namely an UPSERT carrying the empty-string address. -/
theorem C2_counterexample :
    (auto_dns_mapping.set_dns envPending "example.com" "i-2").2 =
      [DnsCall.upsert "DNS attached to instance i-2"
        ⟨"autodns-web1.example.com", [""], 300, "A"⟩] := by
  decide

/-- C2 amended: for every lifecycle state outside running, stopped and
terminated, with a non-blank DNS name tag, both variants fall through the
state branch and submit exactly one UPSERT whose single resource value is
the empty string, the unassigned initial address. -/
theorem C2_other_state_upsert (env : AwsEnv) (dom iid : String)
    (inst : Ec2Instance) (ts : List Tag)
    (hdesc : env.describeResult = .ok inst) (htags : inst.tags = some ts)
    (hne : extractDnsStr ts ≠ "")
    (h1 : inst.stateName ≠ "running") (h2 : inst.stateName ≠ "stopped")
    (h3 : inst.stateName ≠ "terminated") :
    (auto_dns_mapping.set_dns env dom iid).2 =
      [DnsCall.upsert ("DNS attached to instance " ++ iid)
        ⟨"autodns-" ++ extractDnsStr ts ++ "." ++ dom, [""], 300, "A"⟩] ∧
    (hello_world.set_dns env dom iid).2 =
      [DnsCall.upsert ("DNS attached to instance " ++ iid)
        ⟨extractDnsStr ts ++ "." ++ dom, [""], 300, "A"⟩] := by
  constructor
  · simp [auto_dns_mapping.set_dns, hdesc, htags, hne, h1, h2, h3,
      auto_dns_mapping.createRecordSet]
  · simp [hello_world.set_dns, hdesc, htags, hne, h1, h2, h3,
      hello_world.createRecordSet]

/-- C2 witness: the amended statement instantiated at the concrete pending
environment. -/
theorem C2_witness :
    (auto_dns_mapping.set_dns envPending "example.com" "i-2w").2 =
      [DnsCall.upsert ("DNS attached to instance " ++ "i-2w")
        ⟨"autodns-" ++ extractDnsStr [⟨"dns", "web1"⟩] ++ "." ++ "example.com",
          [""], 300, "A"⟩] ∧
    (hello_world.set_dns envPending "example.com" "i-2w").2 =
      [DnsCall.upsert ("DNS attached to instance " ++ "i-2w")
        ⟨extractDnsStr [⟨"dns", "web1"⟩] ++ "." ++ "example.com", [""], 300, "A"⟩] :=
  C2_other_state_upsert envPending "example.com" "i-2w" instPending
    [⟨"dns", "web1"⟩] rfl rfl (by decide) (by decide) (by decide) (by decide)

/-- C3 counterexample: an event payload lacking the nested detail object
makes lambda_handler raise a lookup error past the entry point instead of
returning one of the two structured results. -/
theorem C3_counterexample :
    auto_dns_mapping.lambda_handler envRunning "example.com" ⟨none⟩ =
      .error "KeyError: detail" ∧
    hello_world.lambda_handler envRunning "example.com" ⟨none⟩ =
      .error "KeyError: detail" := by
  constructor <;> rfl

/-- C3 amended: for every event whose nested detail.instance-id field is
present, the lambda_handler of both variants returns exactly one of the two
structured results, status 200 with body Function executed or status 500
with body Function failed, and no exception propagates; an event missing the
nested field instead raises a lookup error past the handler. -/
theorem C3_two_results (env : AwsEnv) (dom iid : String) (d : EventDetail)
    (hd : d.instanceId = some iid) :
    (auto_dns_mapping.lambda_handler env dom ⟨some d⟩ =
        .ok ⟨200, "\"Function executed\""⟩ ∨
      auto_dns_mapping.lambda_handler env dom ⟨some d⟩ =
        .ok ⟨500, "\"Function failed\""⟩) ∧
    (hello_world.lambda_handler env dom ⟨some d⟩ =
        .ok ⟨200, "\"Function executed\""⟩ ∨
      hello_world.lambda_handler env dom ⟨some d⟩ =
        .ok ⟨500, "\"Function failed\""⟩) := by
  constructor
  · rcases hb : (auto_dns_mapping.set_dns env dom iid).1 with _ | _
    · right; simp [auto_dns_mapping.lambda_handler, hd, hb]
    · left; simp [auto_dns_mapping.lambda_handler, hd, hb]
  · rcases hb : (hello_world.set_dns env dom iid).1 with _ | _
    · right; simp [hello_world.lambda_handler, hd, hb]
    · left; simp [hello_world.lambda_handler, hd, hb]

/-- C3 witness: the amended statement instantiated at a concrete well-formed
event. -/
theorem C3_witness :
    (auto_dns_mapping.lambda_handler envRunning "example.com" ⟨some ⟨some "i-3"⟩⟩ =
        .ok ⟨200, "\"Function executed\""⟩ ∨
      auto_dns_mapping.lambda_handler envRunning "example.com" ⟨some ⟨some "i-3"⟩⟩ =
        .ok ⟨500, "\"Function failed\""⟩) ∧
    (hello_world.lambda_handler envRunning "example.com" ⟨some ⟨some "i-3"⟩⟩ =
        .ok ⟨200, "\"Function executed\""⟩ ∨
      hello_world.lambda_handler envRunning "example.com" ⟨some ⟨some "i-3"⟩⟩ =
        .ok ⟨500, "\"Function failed\""⟩) :=
  C3_two_results envRunning "example.com" "i-3" ⟨some "i-3"⟩ rfl

/-- C4 counterexample: in the auto_dns_mapping variant the scenario submits
its UPSERT under the prefixed name autodns-web1.example.com, not
web1.example.com as the claim states. -/
theorem C4_counterexample :
    (auto_dns_mapping.set_dns envRunning "example.com" "i-4").2 =
      [DnsCall.upsert "DNS attached to instance i-4"
        ⟨"autodns-web1.example.com", ["1.2.3.4"], 300, "A"⟩] ∧
    "autodns-web1.example.com" ≠ "web1.example.com" := by
  decide

/-- C4 amended: for a running instance with tag dns=web1, public address
1.2.3.4 and parent domain example.com, the hello_world variant submits an
UPSERT for record name web1.example.com with value 1.2.3.4, TTL 300, type A,
while the auto_dns_mapping variant submits the same UPSERT under the
prefixed name autodns-web1.example.com. -/
theorem C4_scenario_a :
    (hello_world.set_dns envRunning "example.com" "i-4").2 =
      [DnsCall.upsert "DNS attached to instance i-4"
        ⟨"web1.example.com", ["1.2.3.4"], 300, "A"⟩] ∧
    (auto_dns_mapping.set_dns envRunning "example.com" "i-4").2 =
      [DnsCall.upsert "DNS attached to instance i-4"
        ⟨"autodns-web1.example.com", ["1.2.3.4"], 300, "A"⟩] := by
  decide

/-- C5: when the single record returned by the zone query does not exactly
equal the target name plus a trailing dot, neither variant submits a DELETE
change, both return the failure result False, and no exception reaches the
caller. -/
theorem C5_mismatch_no_delete (env : AwsEnv) (dom s : String)
    (rd : ResourceRecordSet)
    (hA : env.listResult ("autodns-" ++ s ++ "." ++ dom) = .ok [rd])
    (hAn : rd.Name ≠ "autodns-" ++ s ++ "." ++ dom ++ ".")
    (hH : env.listResult (s ++ "." ++ dom) = .ok [rd])
    (hHn : rd.Name ≠ s ++ "." ++ dom ++ ".") :
    auto_dns_mapping.deleteRecordSet env dom s = (false, []) ∧
    hello_world.deleteRecordSet env dom s = (false, []) := by
  constructor
  · simp [auto_dns_mapping.deleteRecordSet, hA, hAn]
  · simp [hello_world.deleteRecordSet, hH, hHn]

/-- C5 witness: the mismatch guard instantiated at a concrete environment
returning an unrelated record. -/
theorem C5_witness :
    auto_dns_mapping.deleteRecordSet envTermMismatch "example.com" "web1" =
      (false, []) ∧
    hello_world.deleteRecordSet envTermMismatch "example.com" "web1" =
      (false, []) :=
  C5_mismatch_no_delete envTermMismatch "example.com" "web1" mismatchRecord
    rfl (by decide) rfl (by decide)

/-- C6 counterexample: two invocations issue zero mutating calls: the
auto_dns_mapping variant on a running instance with no dns tag, and the
hello_world variant on a terminated instance whose deletion pre-check
mismatches, both contradicting that exactly one mutating call is issued. -/
theorem C6_counterexample :
    (auto_dns_mapping.set_dns envNoTag "example.com" "i-6").2 = [] ∧
    (hello_world.set_dns envTermMismatch "example.com" "i-6").2 = [] := by
  decide

/-- C6 amended: when the describe lookup succeeds and the DNS name tag is
non-blank, a non-terminated lifecycle state issues exactly one mutating
call, an upsert, in both variants; the terminated state issues at most one
mutating call, a single delete when the pre-check matches and none
otherwise. -/
theorem C6_single_mutation (env : AwsEnv) (dom iid : String)
    (inst : Ec2Instance) (ts : List Tag)
    (hdesc : env.describeResult = .ok inst) (htags : inst.tags = some ts)
    (hne : extractDnsStr ts ≠ "") :
    (inst.stateName ≠ "terminated" →
      (∃ c r, (auto_dns_mapping.set_dns env dom iid).2 = [DnsCall.upsert c r]) ∧
      (∃ c r, (hello_world.set_dns env dom iid).2 = [DnsCall.upsert c r])) ∧
    (inst.stateName = "terminated" →
      ((auto_dns_mapping.set_dns env dom iid).2 = [] ∨
        ∃ r, (auto_dns_mapping.set_dns env dom iid).2 = [DnsCall.delete r]) ∧
      ((hello_world.set_dns env dom iid).2 = [] ∨
        ∃ r, (hello_world.set_dns env dom iid).2 = [DnsCall.delete r])) := by
  constructor
  · intro hterm
    constructor
    · refine ⟨"DNS attached to instance " ++ iid,
        ⟨"autodns-" ++ extractDnsStr ts ++ "." ++ dom,
         [if inst.stateName = "running" then inst.publicIpAddress.getD ""
          else if inst.stateName = "stopped" then "127.0.0.1" else ""],
         300, "A"⟩, ?_⟩
      simp [auto_dns_mapping.set_dns, hdesc, htags, hne, hterm,
        auto_dns_mapping.createRecordSet]
    · refine ⟨"DNS attached to instance " ++ iid,
        ⟨extractDnsStr ts ++ "." ++ dom,
         [if inst.stateName = "running" then inst.publicIpAddress.getD ""
          else if inst.stateName = "stopped" then "127.0.0.1" else ""],
         300, "A"⟩, ?_⟩
      simp [hello_world.set_dns, hdesc, htags, hterm, hello_world.createRecordSet]
  · intro hterm
    constructor
    · have hrw : auto_dns_mapping.set_dns env dom iid =
          auto_dns_mapping.deleteRecordSet env dom (extractDnsStr ts) := by
        simp [auto_dns_mapping.set_dns, hdesc, htags, hne, hterm]
      rw [hrw]
      exact deleteTraceAuto env dom (extractDnsStr ts)
    · have hrw : hello_world.set_dns env dom iid =
          hello_world.deleteRecordSet env dom (extractDnsStr ts) := by
        simp [hello_world.set_dns, hdesc, htags, hterm]
      rw [hrw]
      exact deleteTraceHello env dom (extractDnsStr ts)

/-- C6 witness: the amended statement instantiated at the concrete pending
environment. -/
theorem C6_witness :
    (instPending.stateName ≠ "terminated" →
      (∃ c r, (auto_dns_mapping.set_dns envPending "example.com" "i-6w").2 =
        [DnsCall.upsert c r]) ∧
      (∃ c r, (hello_world.set_dns envPending "example.com" "i-6w").2 =
        [DnsCall.upsert c r])) ∧
    (instPending.stateName = "terminated" →
      ((auto_dns_mapping.set_dns envPending "example.com" "i-6w").2 = [] ∨
        ∃ r, (auto_dns_mapping.set_dns envPending "example.com" "i-6w").2 =
          [DnsCall.delete r]) ∧
      ((hello_world.set_dns envPending "example.com" "i-6w").2 = [] ∨
        ∃ r, (hello_world.set_dns envPending "example.com" "i-6w").2 =
          [DnsCall.delete r])) :=
  C6_single_mutation envPending "example.com" "i-6w" instPending
    [⟨"dns", "web1"⟩] rfl rfl (by decide)

/-- C7 counterexample: the zone query returns a matched record carrying two
resource values, yet the submitted DELETE carries only the first one, not
all values returned by the query. -/
theorem C7_counterexample :
    (auto_dns_mapping.deleteRecordSet envTwoVals "example.com" "web1").2 =
      [DnsCall.delete ⟨"autodns-web1.example.com.", ["1.1.1.1"], 60, "A"⟩] ∧
    twoValRecord.ResourceRecords = ["1.1.1.1", "2.2.2.2"] := by
  decide

/-- C7 amended: when the deletion pre-check matches, exactly one DELETE
change is submitted, carrying the exact name, TTL and type that the zone
query returned for the matched record set, but only its first resource
value; any later resource values are dropped. -/
theorem C7_delete_first_value (env : AwsEnv) (dom s : String)
    (rdA rdH : ResourceRecordSet) (vA vH : String) (tlA tlH : List String)
    (hA : env.listResult ("autodns-" ++ s ++ "." ++ dom) = .ok [rdA])
    (hAn : rdA.Name = "autodns-" ++ s ++ "." ++ dom ++ ".")
    (hAv : rdA.ResourceRecords = vA :: tlA)
    (hH : env.listResult (s ++ "." ++ dom) = .ok [rdH])
    (hHn : rdH.Name = s ++ "." ++ dom ++ ".")
    (hHv : rdH.ResourceRecords = vH :: tlH) :
    auto_dns_mapping.deleteRecordSet env dom s =
      (callOk env (DnsCall.delete ⟨rdA.Name, [vA], rdA.TTL, rdA.recType⟩),
       [DnsCall.delete ⟨rdA.Name, [vA], rdA.TTL, rdA.recType⟩]) ∧
    hello_world.deleteRecordSet env dom s =
      (callOk env (DnsCall.delete ⟨rdH.Name, [vH], rdH.TTL, rdH.recType⟩),
       [DnsCall.delete ⟨rdH.Name, [vH], rdH.TTL, rdH.recType⟩]) := by
  constructor
  · simp [auto_dns_mapping.deleteRecordSet, hA, hAn, hAv]
  · simp [hello_world.deleteRecordSet, hH, hHn, hHv]

/-- C7 witness: the amended statement instantiated at a concrete matching
environment, one matched record per variant. -/
theorem C7_witness :
    auto_dns_mapping.deleteRecordSet envDeleteW "example.com" "web1" =
      (callOk envDeleteW
        (DnsCall.delete ⟨rdAutoW.Name, ["7.7.7.7"], rdAutoW.TTL, rdAutoW.recType⟩),
       [DnsCall.delete ⟨rdAutoW.Name, ["7.7.7.7"], rdAutoW.TTL, rdAutoW.recType⟩]) ∧
    hello_world.deleteRecordSet envDeleteW "example.com" "web1" =
      (callOk envDeleteW
        (DnsCall.delete ⟨rdHelloW.Name, ["6.6.6.6"], rdHelloW.TTL, rdHelloW.recType⟩),
       [DnsCall.delete ⟨rdHelloW.Name, ["6.6.6.6"], rdHelloW.TTL, rdHelloW.recType⟩]) :=
  C7_delete_first_value envDeleteW "example.com" "web1" rdAutoW rdHelloW
    "7.7.7.7" "6.6.6.6" ["8.8.8.8"] [] rfl rfl rfl rfl rfl rfl

/-- C8: for a stopped instance with a non-blank DNS name tag, both variants
submit exactly one UPSERT whose single resource value is the loopback
placeholder 127.0.0.1, with record type A and TTL 300. -/
theorem C8_stopped_loopback (env : AwsEnv) (dom iid : String)
    (inst : Ec2Instance) (ts : List Tag)
    (hdesc : env.describeResult = .ok inst) (htags : inst.tags = some ts)
    (hstate : inst.stateName = "stopped") (hne : extractDnsStr ts ≠ "") :
    (auto_dns_mapping.set_dns env dom iid).2 =
      [DnsCall.upsert ("DNS attached to instance " ++ iid)
        ⟨"autodns-" ++ extractDnsStr ts ++ "." ++ dom, ["127.0.0.1"], 300, "A"⟩] ∧
    (hello_world.set_dns env dom iid).2 =
      [DnsCall.upsert ("DNS attached to instance " ++ iid)
        ⟨extractDnsStr ts ++ "." ++ dom, ["127.0.0.1"], 300, "A"⟩] := by
  constructor
  · simp [auto_dns_mapping.set_dns, hdesc, htags, hne, hstate,
      auto_dns_mapping.createRecordSet]
  · simp [hello_world.set_dns, hdesc, htags, hstate, hello_world.createRecordSet]

/-- C8 witness: the statement instantiated at the concrete stopped
environment with a mixed-case, space-padded tag value. -/
theorem C8_witness :
    (auto_dns_mapping.set_dns envStopped "example.com" "i-8").2 =
      [DnsCall.upsert ("DNS attached to instance " ++ "i-8")
        ⟨"autodns-" ++ extractDnsStr [⟨"dns", " Web1 "⟩] ++ "." ++ "example.com",
          ["127.0.0.1"], 300, "A"⟩] ∧
    (hello_world.set_dns envStopped "example.com" "i-8").2 =
      [DnsCall.upsert ("DNS attached to instance " ++ "i-8")
        ⟨extractDnsStr [⟨"dns", " Web1 "⟩] ++ "." ++ "example.com",
          ["127.0.0.1"], 300, "A"⟩] :=
  C8_stopped_loopback envStopped "example.com" "i-8" instStopped
    [⟨"dns", " Web1 "⟩] rfl rfl rfl (by decide)

/-- C9 counterexample: with no dns-keyed tag the extraction yields the empty
string, yet the hello_world invocation is not a no-op: it still issues an
UPSERT call. -/
theorem C9_counterexample :
    extractDnsStr [⟨"Name", "x"⟩] = "" ∧
    (hello_world.set_dns envNoTag "example.com" "i-9").2 =
      [DnsCall.upsert "DNS attached to instance i-9"
        ⟨".example.com", ["9.9.9.9"], 300, "A"⟩] := by
  decide

/-- C9 amended: extraction matches the tag key dns case-insensitively after
trimming and returns the trimmed, lower-cased value of the matching tag;
with no matching key it yields the empty string, and the auto_dns_mapping
invocation then returns False without any DNS call, while the hello_world
invocation still issues a DNS call for any non-terminated state. -/
theorem C9_extraction (ts : List Tag) (env : AwsEnv) (dom iid : String)
    (inst : Ec2Instance)
    (hnone : ∀ u ∈ ts, pyNorm u.key ≠ "dns")
    (hdesc : env.describeResult = .ok inst) (htags : inst.tags = some ts) :
    extractDnsStr ts = "" ∧
    auto_dns_mapping.set_dns env dom iid = (false, []) ∧
    (inst.stateName ≠ "terminated" →
      (hello_world.set_dns env dom iid).2 ≠ []) ∧
    (∀ t : Tag, pyNorm t.key = "dns" →
      extractDnsStr (ts ++ [t]) = pyNorm t.value) := by
  have hempty : extractDnsStr ts = "" := extractDnsStr_eq_empty ts hnone
  refine ⟨hempty, ?_, ?_, ?_⟩
  · simp [auto_dns_mapping.set_dns, hdesc, htags, hempty]
  · intro hterm
    simp [hello_world.set_dns, hdesc, htags, hterm, hello_world.createRecordSet]
  · intro t ht
    have hf := find_dns_skip ts [] t hnone ht
    simp [extractDnsStr, hf]

/-- C9 witness: the amended statement instantiated at the concrete
no-dns-tag environment. -/
theorem C9_witness :
    extractDnsStr [⟨"Name", "x"⟩] = "" ∧
    auto_dns_mapping.set_dns envNoTag "example.com" "i-9w" = (false, []) ∧
    (instNoTag.stateName ≠ "terminated" →
      (hello_world.set_dns envNoTag "example.com" "i-9w").2 ≠ []) ∧
    (∀ t : Tag, pyNorm t.key = "dns" →
      extractDnsStr ([⟨"Name", "x"⟩] ++ [t]) = pyNorm t.value) :=
  C9_extraction [⟨"Name", "x"⟩] envNoTag "example.com" "i-9w" instNoTag
    (by decide) rfl rfl

/-- C10: when several tags have trimmed, lower-cased key dns, the derived
DNS name tag is the trimmed, lower-cased value of the first such tag in list
order; all later matching tags are ignored. -/
theorem C10_first_dns_tag_wins (pre post : List Tag) (t : Tag)
    (hpre : ∀ u ∈ pre, pyNorm u.key ≠ "dns") (ht : pyNorm t.key = "dns") :
    extractDnsStr (pre ++ t :: post) = pyNorm t.value := by
  simp [extractDnsStr, find_dns_skip pre post t hpre ht]

/-- C10 witness: with a first matching tag of mixed case and padding and a
second exact dns tag, the normalized value of the first one is extracted. -/
theorem C10_witness :
    extractDnsStr ([⟨"Name", "x"⟩] ++ ⟨" DNS ", " First "⟩ :: [⟨"dns", "second"⟩]) =
      pyNorm " First " :=
  C10_first_dns_tag_wins [⟨"Name", "x"⟩] [⟨"dns", "second"⟩] ⟨" DNS ", " First "⟩
    (by decide) (by decide)
